import Mathlib

set_option maxRecDepth 8192

/-!
A shallow embedding of `src/app.py` (VoiceCleaner): a two-pass ffmpeg
loudness-normalization pipeline.  External effects (the `subprocess`
module and `json.loads` from the Python standard library) are modelled
as an explicit `World` record of environment functions; every function
of the source file becomes a pure Lean function over that record, and
the sequence of external commands spawned by a run is returned
alongside the result as an explicit trace.  Python exceptions become an
`Except PyErr` result, with one `PyErr` constructor per Python
exception class that can arise.
-/

namespace VoiceCleaner

/-- The result of one finished child process, as captured by
`subprocess.run(..., text=True, stdout=PIPE, stderr=PIPE)`:
the exit status and the fully captured, text-decoded output streams. -/
structure CompletedProcess where
  returncode : Int
  stdout : String
  stderr : String
deriving Repr, DecidableEq

/-- Python exceptions that the embedded code can produce.
`runtimeError` is `RuntimeError(msg)` (every explicit `raise` in
`app.py`); `keyError` is the `KeyError` from a failed `dict` subscript
`data[k]`; `typeError` and `attributeError` model the dynamic-type
failures of subscripting / iterating / calling `.get` on a value of the
wrong shape; `valueError` models `json.JSONDecodeError` (a subclass of
`ValueError`) from `json.loads`; `calledProcessError` is
`subprocess.CalledProcessError`, raisable by `subprocess.run` only when
`check=True`. -/
inductive PyErr where
  | runtimeError (msg : String)
  | keyError (key : String)
  | typeError (msg : String)
  | attributeError (msg : String)
  | valueError (msg : String)
  | calledProcessError (returncode : Int) (cmd : List String)
deriving Repr, DecidableEq

/-- A Python value decoded from JSON by `json.loads`.  `num` carries the
decimal rendering `str(x)` of the parsed Python number, since the
source only ever consumes numbers through `str(...)`. -/
inductive Json where
  | null
  | bool (b : Bool)
  | num (render : String)
  | str (s : String)
  | arr (xs : List Json)
  | obj (kvs : List (String × Json))

/-- Lookup in a Python `dict` built from a JSON object: with duplicate
keys, `json.loads` keeps the last occurrence. -/
def dictGet (kvs : List (String × Json)) (k : String) : Option Json :=
  (kvs.reverse.lookup k)

/-- `v.get(k, default)` on a Python value: only `dict` has `.get`;
any other value raises `AttributeError`. -/
def pyGet (v : Json) (k : String) (default : Json) : Except PyErr Json :=
  match v with
  | .obj kvs => .ok ((dictGet kvs k).getD default)
  | _ => .error (.attributeError "get")

/-- `v.get(k)` on a Python value, where an absent key yields Python
`None`, modelled as `Option.none`. -/
def pyGetOpt (v : Json) (k : String) : Except PyErr (Option Json) :=
  match v with
  | .obj kvs => .ok (dictGet kvs k)
  | _ => .error (.attributeError "get")

/-- Iterating a Python value with `for`: a list yields its elements, a
string yields its one-character strings, a dict yields its keys, and
any other value raises `TypeError`. -/
def pyIter (v : Json) : Except PyErr (List Json) :=
  match v with
  | .arr xs => .ok xs
  | .str s => .ok (s.data.map (fun c => Json.str (String.singleton c)))
  | .obj kvs => .ok (kvs.map (fun p => Json.str p.1))
  | _ => .error (.typeError "object is not iterable")

/-- `v[k]` with a string key: a `dict` either yields the value or
raises `KeyError(k)`; any non-dict raises `TypeError`. -/
def pySubscript (v : Json) (k : String) : Except PyErr Json :=
  match v with
  | .obj kvs =>
    match dictGet kvs k with
    | some x => .ok x
    | none => .error (.keyError k)
  | _ => .error (.typeError "value is not subscriptable by a string")

/-- Python `repr` of a decoded JSON value. -/
def pyRepr (v : Json) : String :=
  match v with
  | .null => "None"
  | .bool b => if b then "True" else "False"
  | .num r => r
  | .str s => "\x27" ++ s ++ "\x27"
  | .arr xs =>
    "[" ++ String.intercalate ", " (xs.attach.map (fun x => pyRepr x.1)) ++ "]"
  | .obj kvs =>
    "\x7b" ++
      String.intercalate ", "
        (kvs.attach.map (fun p => "\x27" ++ p.1.1 ++ "\x27: " ++ pyRepr p.1.2)) ++
      "\x7d"
decreasing_by
  · have := List.sizeOf_lt_of_mem x.2
    simp only [Json.arr.sizeOf_spec]
    omega
  · have h1 := List.sizeOf_lt_of_mem p.2
    have h2 : sizeOf p.1.2 < sizeOf p.1 := by
      rcases p.1 with ⟨a, b⟩
      simp
    simp only [Json.obj.sizeOf_spec]
    omega

/-- Python `str` of a decoded JSON value: the string itself for `str`
values, `repr` otherwise (they agree on numbers, booleans and `None`). -/
def pyStr (v : Json) : String :=
  match v with
  | .str s => s
  | _ => pyRepr v

/-- The immutable five-field measurement record (`@dataclass(frozen=True)
class LoudnormStats` in `app.py`). -/
structure LoudnormStats where
  input_i : String
  input_tp : String
  input_lra : String
  input_thresh : String
  target_offset : String
deriving Repr, DecidableEq

/-- `LOUDNORM_JSON_RE.search(s)` for the regex pattern
matching a left brace, then any characters, then a right brace:
`re.search` yields the leftmost match, and the greedy middle makes it
extend to the last right brace of the whole text.  Concretely: the
match starts at the first left brace of `s` and ends at the last right
brace of `s`, and there is no match when no right brace follows the
first left brace. -/
def LOUDNORM_JSON_RE_search (s : String) : Option String :=
  match s.data.dropWhile (fun c => c != '\x7b') with
  | [] => none
  | first :: rest =>
    match rest.reverse.dropWhile (fun c => c != '\x7d') with
    | [] => none
    | rrest => some (String.mk (first :: rrest.reverse))

/-- The external environment the program runs against: `exec` is the
operating system running one command line to completion (what
`subprocess.run` observes), and `loads` is `json.loads` from the
Python standard library, yielding a decoded value or a
`json.JSONDecodeError`. -/
structure World where
  exec : List String → CompletedProcess
  loads : String → Except PyErr Json

/-- `subprocess.run(cmd, text=True, stdout=PIPE, stderr=PIPE, check=check)`:
the child process always runs; with `check=True` a non-zero exit status
raises `CalledProcessError`, with `check=False` the completed process
is returned regardless. -/
def subprocessRun (exec : List String → CompletedProcess) (cmd : List String)
    (check : Bool) : Except PyErr CompletedProcess :=
  let p := exec cmd
  if check && p.returncode != 0 then .error (.calledProcessError p.returncode cmd)
  else .ok p

/-- `run(cmd)` from `app.py`: `subprocess.run` with `text=True`, both
streams piped, and `check=False`. -/
def run (w : World) (cmd : List String) : Except PyErr CompletedProcess :=
  subprocessRun w.exec cmd false

/-- The `RuntimeError` raised by `ffprobe_json` on a non-zero ffprobe
exit status: the spec's `ProbeError`, carrying the captured stderr. -/
def probeErrorOf (stderr : String) : PyErr :=
  .runtimeError ("ffprobe failed:\n" ++ stderr)

/-- The `RuntimeError` raised by `clean_video` when no audio stream is
found: the spec's `NoAudioStreamError`. -/
def noAudioStreamError : PyErr :=
  .runtimeError "Input has no audio stream."

/-- The `RuntimeError` raised by `measure_loudnorm` on a non-zero
ffmpeg exit status: one face of the spec's `MeasurementError`. -/
def measureFailError (stderr : String) : PyErr :=
  .runtimeError ("ffmpeg loudnorm measure failed:\n" ++ stderr)

/-- The `RuntimeError` raised by `measure_loudnorm` when no
brace-delimited block is found in the diagnostic output: the other
face of the spec's `MeasurementError`. -/
def parseFailError (stderr : String) : PyErr :=
  .runtimeError ("Could not parse loudnorm json from ffmpeg output:\n" ++ stderr)

/-- The `RuntimeError` raised by `clean_video` on a non-zero exit
status of the final encode: the spec's `EncodeError`. -/
def encodeErrorOf (stderr : String) : PyErr :=
  .runtimeError ("ffmpeg clean failed:\n" ++ stderr)

/-- The argument vector built by `ffprobe_json`. -/
def ffprobe_cmd (inp : String) : List String :=
  ["ffprobe", "-v", "error", "-print_format", "json", "-show_streams",
   "-show_format", inp]

/-- `ffprobe_json(inp)` from `app.py`, paired with the list of external
commands it spawns: run ffprobe, raise on non-zero exit, otherwise
decode stdout as JSON. -/
def ffprobe_json (w : World) (inp : String) :
    Except PyErr Json × List (List String) :=
  let cmd := ffprobe_cmd inp
  let res :=
    match run w cmd with
    | .error e => .error e
    | .ok p =>
      if p.returncode != 0 then .error (probeErrorOf p.stderr)
      else w.loads p.stdout
  (res, [cmd])

/-- Python `s.get("codec_type") == "audio"`: true exactly when the
value is present and is the string `audio` (comparison of a string
with `None` or with a value of another type is `False`). -/
def isAudioVal : Option Json → Bool
  | some (Json.str s) => s == "audio"
  | _ => false

/-- The loop body of `pick_audio_stream`: scan the stream entries in
order, returning the first whose `codec_type` field equals the string
`audio`. -/
def pickLoop : List Json → Except PyErr (Option Json)
  | [] => .ok none
  | s :: rest =>
    match pyGetOpt s "codec_type" with
    | .error e => .error e
    | .ok ct =>
      if isAudioVal ct then .ok (some s) else pickLoop rest

/-- `pick_audio_stream(meta)` from `app.py`: iterate
`meta.get("streams", [])` and return the first entry whose
`codec_type` is `audio`, or `None`. -/
def pick_audio_stream (meta : Json) : Except PyErr (Option Json) :=
  match pyGet meta "streams" (Json.arr []) with
  | .error e => .error e
  | .ok streams =>
    match pyIter streams with
    | .error e => .error e
    | .ok items => pickLoop items

/-- `build_base_filters()` from `app.py`: the fixed six-stage audio
filter chain, comma-joined. -/
def build_base_filters : String :=
  String.intercalate ","
    ["highpass=f=90",
     "lowpass=f=8000",
     "anlmdn=s=0.00005:p=0.05",
     "agate=threshold=-35dB:ratio=2:attack=10:release=120",
     "acompressor=threshold=-18dB:ratio=3:attack=5:release=80:makeup=4",
     "alimiter=limit=0.98"]

/-- The argument vector built by `measure_loudnorm` around the filter
argument `af`. -/
def measure_cmd (inp af : String) : List String :=
  ["ffmpeg", "-hide_banner", "-nostdin", "-y", "-i", inp, "-map", "0:a:0",
   "-vn", "-af", af, "-f", "null", "-"]

/-- The measurement-pass filter argument of `measure_loudnorm`:
the base chain with the analysis-mode loudnorm stage appended
(`target_i` stands for the decimal rendering of the Python float,
which the source only uses through string interpolation). -/
def measure_af (base_filters target_i : String) : String :=
  base_filters ++ ",loudnorm=I=" ++ target_i ++ ":TP=-1.5:LRA=11:print_format=json"

/-- Lines 94-101 of `app.py`: decode the extracted block with
`json.loads` and build the `LoudnormStats` record, subscripting the
five required fields in the order the constructor arguments are
evaluated. -/
def parseStats (w : World) (block : String) : Except PyErr LoudnormStats :=
  match w.loads block with
  | .error e => .error e
  | .ok data =>
    match pySubscript data "input_i" with
    | .error e => .error e
    | .ok vi =>
      match pySubscript data "input_tp" with
      | .error e => .error e
      | .ok vtp =>
        match pySubscript data "input_lra" with
        | .error e => .error e
        | .ok vlra =>
          match pySubscript data "input_thresh" with
          | .error e => .error e
          | .ok vth =>
            match pySubscript data "target_offset" with
            | .error e => .error e
            | .ok voff =>
              .ok ⟨pyStr vi, pyStr vtp, pyStr vlra, pyStr vth, pyStr voff⟩

/-- `measure_loudnorm(inp, base_filters, target_i)` from `app.py`,
paired with the commands it spawns: run the analysis-only ffmpeg pass,
raise on non-zero exit, locate the brace-delimited report in the
captured stderr, and parse the five loudness fields from it. -/
def measure_loudnorm (w : World) (inp base_filters target_i : String) :
    Except PyErr LoudnormStats × List (List String) :=
  let af := measure_af base_filters target_i
  let cmd := measure_cmd inp af
  let res :=
    match run w cmd with
    | .error e => .error e
    | .ok p =>
      if p.returncode != 0 then .error (measureFailError p.stderr)
      else
        match LOUDNORM_JSON_RE_search p.stderr with
        | none => .error (parseFailError p.stderr)
        | some block => parseStats w block
  (res, [cmd])

/-- Lines 118-123 of `app.py`: the apply-pass loudnorm filter
expression, feeding the measured statistics back in with linear
correction enabled and a human-readable summary report. -/
def loudnorm_apply_expr (target_i : String) (stats : LoudnormStats) : String :=
  "loudnorm=I=" ++ target_i ++ ":TP=-1.5:LRA=11:" ++
  "measured_I=" ++ stats.input_i ++ ":measured_TP=" ++ stats.input_tp ++ ":" ++
  "measured_LRA=" ++ stats.input_lra ++ ":measured_thresh=" ++ stats.input_thresh ++ ":" ++
  "offset=" ++ stats.target_offset ++ ":linear=true:print_format=summary"

/-- The final encode argument vector built by `clean_video` around the
filter argument `af`: video stream copied, audio stream filtered and
encoded as AAC at the requested bitrate, fast-start enabled. -/
def encode_cmd (inp out af audio_bitrate : String) : List String :=
  ["ffmpeg", "-hide_banner", "-nostdin", "-y", "-i", inp,
   "-map", "0:v:0", "-c:v", "copy",
   "-map", "0:a:0", "-af", af, "-c:a", "aac", "-b:a", audio_bitrate,
   "-movflags", "+faststart", out]

/-- `clean_video(inp, out, target_i, audio_bitrate)` from `app.py`,
paired with the list of external commands spawned: probe, require an
audio stream, measure, then run the final encode with the shared base
chain and the apply-mode loudnorm stage. -/
def clean_video (w : World) (inp out target_i audio_bitrate : String) :
    Except PyErr Unit × List (List String) :=
  let pr := ffprobe_json w inp
  match pr.1 with
  | .error e => (.error e, pr.2)
  | .ok meta =>
    match pick_audio_stream meta with
    | .error e => (.error e, pr.2)
    | .ok none => (.error noAudioStreamError, pr.2)
    | .ok (some _astream) =>
      let base_filters := build_base_filters
      let ms := measure_loudnorm w inp base_filters target_i
      match ms.1 with
      | .error e => (.error e, pr.2 ++ ms.2)
      | .ok stats =>
        let loudnorm_apply := loudnorm_apply_expr target_i stats
        let af := base_filters ++ "," ++ loudnorm_apply
        let cmd := encode_cmd inp out af audio_bitrate
        match run w cmd with
        | .error e => (.error e, pr.2 ++ ms.2 ++ [cmd])
        | .ok p =>
          if p.returncode != 0 then
            (.error (encodeErrorOf p.stderr), pr.2 ++ ms.2 ++ [cmd])
          else (.ok (), pr.2 ++ ms.2 ++ [cmd])

/-! Observation helpers used only to state properties of the
constructed filter strings. -/

/-- Split a character list on a separator character; used to read the
colon-separated parameter list off a filter expression. -/
def splitOnChar (sep : Char) : List Char → List (List Char)
  | [] => [[]]
  | c :: rest =>
    match splitOnChar sep rest with
    | [] => if c == sep then [[], []] else [[c]]
    | g :: gs => if c == sep then [] :: g :: gs else (c :: g) :: gs

/-- The colon-separated parameters of a filter expression of the form
`name=p1:p2:...:pn`: everything after the first `=` split on `:`. -/
def filterParams (e : String) : List String :=
  (splitOnChar ':' ((e.data.dropWhile (fun c => c != '=')).drop 1)).map String.mk

/-- C1: with target loudness rendered `-16.0` and the measurement
record `input_i = -23.1`, `input_tp = -2.0`, `input_lra = 7.3`,
`input_thresh = -33.5`, `target_offset = 1.2`, the apply-pass loudnorm
filter expression built by the orchestrator carries exactly the
parameters `I=-16.0`, `TP=-1.5`, `LRA=11`, `measured_I=-23.1`,
`measured_TP=-2.0`, `measured_LRA=7.3`, `measured_thresh=-33.5`,
`offset=1.2`, `linear=true` (followed only by the apply-mode report
flag `print_format=summary`). -/
theorem c1_apply_filter_params :
    loudnorm_apply_expr "-16.0" ⟨"-23.1", "-2.0", "7.3", "-33.5", "1.2"⟩ =
      "loudnorm=I=-16.0:TP=-1.5:LRA=11:measured_I=-23.1:measured_TP=-2.0:measured_LRA=7.3:measured_thresh=-33.5:offset=1.2:linear=true:print_format=summary" ∧
    filterParams (loudnorm_apply_expr "-16.0" ⟨"-23.1", "-2.0", "7.3", "-33.5", "1.2"⟩) =
      ["I=-16.0", "TP=-1.5", "LRA=11", "measured_I=-23.1", "measured_TP=-2.0",
       "measured_LRA=7.3", "measured_thresh=-33.5", "offset=1.2", "linear=true"] ++
      ["print_format=summary"] := by
  constructor
  · rfl
  · decide

/-- C6: the filter chain builder takes no inputs and returns the
comma-join of exactly six filter expressions in order: high-pass at
90 Hz, low-pass at 8000 Hz, the non-local-means denoiser with strength
0.00005 and smoothing 0.05, the noise gate at threshold -35 dB with
ratio 2, attack 10 and release 120, the compressor at threshold -18 dB
with ratio 3, attack 5, release 80 and makeup 4, and the limiter at
limit 0.98. -/
theorem c6_base_filter_chain :
    build_base_filters =
      "highpass=f=90,lowpass=f=8000,anlmdn=s=0.00005:p=0.05,agate=threshold=-35dB:ratio=2:attack=10:release=120,acompressor=threshold=-18dB:ratio=3:attack=5:release=80:makeup=4,alimiter=limit=0.98" ∧
    (splitOnChar ',' build_base_filters.data).map String.mk =
      ["highpass=f=90",
       "lowpass=f=8000",
       "anlmdn=s=0.00005:p=0.05",
       "agate=threshold=-35dB:ratio=2:attack=10:release=120",
       "acompressor=threshold=-18dB:ratio=3:attack=5:release=80:makeup=4",
       "alimiter=limit=0.98"] := by
  constructor
  · rfl
  · decide

/-- Whether a decoded JSON value is an object (a Python `dict`). -/
def isObjB : Json → Bool
  | .obj _ => true
  | _ => false

/-- Whether a stream entry is a mapping whose `codec_type` field is the
string `audio` — the test applied by `pick_audio_stream` to each entry. -/
def isAudioEntry : Json → Bool
  | .obj fs => isAudioVal (dictGet fs "codec_type")
  | _ => false

/-- On a stream list whose entries are all mappings, the selection loop
returns the first entry passing the audio test, with no exception. -/
lemma pickLoop_eq_find (ss : List Json) (h : ss.all isObjB = true) :
    pickLoop ss = .ok (ss.find? isAudioEntry) := by
  induction ss with
  | nil => rfl
  | cons s rest ih =>
    simp only [List.all_cons, Bool.and_eq_true] at h
    obtain ⟨hs, hrest⟩ := h
    cases s with
    | null => simp [isObjB] at hs
    | bool b => simp [isObjB] at hs
    | num r => simp [isObjB] at hs
    | str t => simp [isObjB] at hs
    | arr xs => simp [isObjB] at hs
    | obj fs =>
      simp only [pickLoop, pyGetOpt, List.find?, isAudioEntry]
      by_cases hc : isAudioVal (dictGet fs "codec_type")
      · simp [hc]
      · simp [hc, ih hrest]

/-- On a descriptor whose stream list consists of mappings, the
selector computes `List.find?` of the audio test. -/
lemma pick_audio_stream_eq_find (kvs : List (String × Json)) (ss : List Json)
    (hs : dictGet kvs "streams" = some (Json.arr ss))
    (hobj : ss.all isObjB = true) :
    pick_audio_stream (Json.obj kvs) = .ok (ss.find? isAudioEntry) := by
  simp only [pick_audio_stream, pyGet, hs, Option.getD_some, pyIter]
  exact pickLoop_eq_find ss hobj

/-- C8: on a probed media descriptor whose stream list consists of
mappings, `pick_audio_stream` is a pure scan that returns the first
entry whose `codec_type` equals `audio` — `List.find?` of the audio
test — so entries of other codec types earlier in the list are skipped
without affecting the result, and when no audio entry exists it
returns the sentinel `none` instead of raising. -/
theorem c8_first_audio_stream (kvs : List (String × Json)) (ss : List Json)
    (hs : dictGet kvs "streams" = some (Json.arr ss))
    (hobj : ss.all isObjB = true) :
    pick_audio_stream (Json.obj kvs) = .ok (ss.find? isAudioEntry) :=
  pick_audio_stream_eq_find kvs ss hs hobj

/-- A video-only stream entry, for concrete runs. -/
def videoEntry : Json := Json.obj [("codec_type", Json.str "video")]

/-- An audio stream entry, for concrete runs. -/
def audioEntry1 : Json :=
  Json.obj [("codec_type", Json.str "audio"), ("index", Json.num "1")]

/-- A second audio stream entry, for concrete runs. -/
def audioEntry2 : Json :=
  Json.obj [("codec_type", Json.str "audio"), ("index", Json.num "2")]

/-- Witness for C8: on a descriptor listing a video stream followed by
two audio streams, the selector picks the first audio entry. -/
theorem c8_first_audio_stream_witness :
    pick_audio_stream
        (Json.obj [("streams", Json.arr [videoEntry, audioEntry1, audioEntry2])]) =
      .ok (some audioEntry1) :=
  (c8_first_audio_stream [("streams", Json.arr [videoEntry, audioEntry1, audioEntry2])]
    [videoEntry, audioEntry1, audioEntry2] rfl rfl).trans (by rfl)

/-- On a successful probe, `ffprobe_json` decodes the captured stdout
and its spawned-command trace is the single ffprobe invocation. -/
lemma ffprobe_json_ok (w : World) (inp : String)
    (hrc : (w.exec (ffprobe_cmd inp)).returncode = 0) :
    ffprobe_json w inp =
      (w.loads (w.exec (ffprobe_cmd inp)).stdout, [ffprobe_cmd inp]) := by
  simp [ffprobe_json, run, subprocessRun, hrc]

/-- On a failed probe, `ffprobe_json` raises the probe error carrying
the captured stderr, after spawning only the ffprobe invocation. -/
lemma ffprobe_json_fail (w : World) (inp : String)
    (hrc : (w.exec (ffprobe_cmd inp)).returncode ≠ 0) :
    ffprobe_json w inp =
      (.error (probeErrorOf (w.exec (ffprobe_cmd inp)).stderr), [ffprobe_cmd inp]) := by
  simp [ffprobe_json, run, subprocessRun, hrc]

/-- C2: whenever the probe succeeds and the decoded metadata has a
stream list of mappings none of which has codec type `audio`, the
end-to-end operation fails with the no-audio-stream error and the
spawned-command trace is exactly the single ffprobe invocation — in
particular neither the analysis nor the encode ffmpeg command is ever
invoked. -/
theorem c2_no_audio_aborts_before_ffmpeg (w : World)
    (inp out ti ab : String) (kvs : List (String × Json)) (ss : List Json)
    (hrc : (w.exec (ffprobe_cmd inp)).returncode = 0)
    (hloads : w.loads (w.exec (ffprobe_cmd inp)).stdout = .ok (Json.obj kvs))
    (hstreams : dictGet kvs "streams" = some (Json.arr ss))
    (hnone : ss.all (fun s => isObjB s && !isAudioEntry s) = true) :
    clean_video w inp out ti ab = (.error noAudioStreamError, [ffprobe_cmd inp]) := by
  have hobj : ss.all isObjB = true := by
    simp only [List.all_eq_true, Bool.and_eq_true] at hnone ⊢
    exact fun s hsmem => (hnone s hsmem).1
  have hfind : ss.find? isAudioEntry = none := by
    simp only [List.all_eq_true, Bool.and_eq_true, Bool.not_eq_true'] at hnone
    exact List.find?_eq_none.mpr fun s hsmem => by simp [(hnone s hsmem).2]
  have e1 : ffprobe_json w inp = (.ok (Json.obj kvs), [ffprobe_cmd inp]) :=
    (ffprobe_json_ok w inp hrc).trans (by rw [hloads])
  have e2 : pick_audio_stream (Json.obj kvs) = .ok none := by
    rw [pick_audio_stream_eq_find kvs ss hstreams hobj, hfind]
  simp [clean_video, e1, e2]

/-- A world in which the probe reports a single video stream and no
audio stream. -/
def noAudioWorld : World where
  exec := fun _ => ⟨0, "PROBEOUT", ""⟩
  loads := fun s =>
    if s = "PROBEOUT" then .ok (Json.obj [("streams", Json.arr [videoEntry])])
    else .error (.valueError "Expecting value")

/-- Witness for C2: in `noAudioWorld` the pipeline stops with the
no-audio-stream error after the probe alone. -/
theorem c2_no_audio_aborts_before_ffmpeg_witness :
    clean_video noAudioWorld "in.mp4" "out.mp4" "-16.0" "192k" =
      (.error noAudioStreamError, [ffprobe_cmd "in.mp4"]) :=
  c2_no_audio_aborts_before_ffmpeg noAudioWorld "in.mp4" "out.mp4" "-16.0" "192k"
    [("streams", Json.arr [videoEntry])] [videoEntry] rfl rfl rfl rfl

/-- `measure_loudnorm` always spawns exactly its one analysis command. -/
lemma measure_loudnorm_snd (w : World) (inp bf ti : String) :
    (measure_loudnorm w inp bf ti).2 = [measure_cmd inp (measure_af bf ti)] := rfl

/-- On a non-zero analysis exit status, `measure_loudnorm` raises the
measurement-failure error carrying the captured stderr. -/
lemma measure_loudnorm_fail (w : World) (inp bf ti : String)
    (h : (w.exec (measure_cmd inp (measure_af bf ti))).returncode ≠ 0) :
    (measure_loudnorm w inp bf ti).1 =
      .error (measureFailError (w.exec (measure_cmd inp (measure_af bf ti))).stderr) := by
  simp [measure_loudnorm, run, subprocessRun, h]

/-- On a failed probe, `clean_video` stops with the probe error after
spawning only the ffprobe command. -/
lemma clean_video_probe_fail (w : World) (inp out ti ab : String)
    (hrc : (w.exec (ffprobe_cmd inp)).returncode ≠ 0) :
    clean_video w inp out ti ab =
      (.error (probeErrorOf (w.exec (ffprobe_cmd inp)).stderr), [ffprobe_cmd inp]) := by
  simp [clean_video, ffprobe_json_fail w inp hrc]

/-- When the probe succeeds, an audio stream is found, and the
measurement stage raises, `clean_video` propagates that error and the
trace is the probe command followed by the analysis command. -/
lemma clean_video_measure_err (w : World) (inp out ti ab : String)
    (meta a : Json) (e : PyErr)
    (hrc : (w.exec (ffprobe_cmd inp)).returncode = 0)
    (hloads : w.loads (w.exec (ffprobe_cmd inp)).stdout = .ok meta)
    (hpick : pick_audio_stream meta = .ok (some a))
    (hm : (measure_loudnorm w inp build_base_filters ti).1 = .error e) :
    clean_video w inp out ti ab =
      (.error e, [ffprobe_cmd inp, measure_cmd inp (measure_af build_base_filters ti)]) := by
  have e1 : ffprobe_json w inp = (.ok meta, [ffprobe_cmd inp]) :=
    (ffprobe_json_ok w inp hrc).trans (by rw [hloads])
  simp [clean_video, e1, hpick, hm, measure_loudnorm_snd]

/-- When probe, stream selection and measurement all succeed,
`clean_video` spawns exactly probe, analysis and encode commands — the
last with the shared base chain and the apply-mode loudnorm stage —
and its result is decided by the encode exit status. -/
lemma clean_video_success_shape (w : World) (inp out ti ab : String)
    (meta a : Json) (stats : LoudnormStats)
    (hrc : (w.exec (ffprobe_cmd inp)).returncode = 0)
    (hloads : w.loads (w.exec (ffprobe_cmd inp)).stdout = .ok meta)
    (hpick : pick_audio_stream meta = .ok (some a))
    (hm : (measure_loudnorm w inp build_base_filters ti).1 = .ok stats) :
    clean_video w inp out ti ab =
      ((if (w.exec (encode_cmd inp out
              (build_base_filters ++ "," ++ loudnorm_apply_expr ti stats) ab)).returncode != 0
        then .error (encodeErrorOf (w.exec (encode_cmd inp out
              (build_base_filters ++ "," ++ loudnorm_apply_expr ti stats) ab)).stderr)
        else .ok ()),
       [ffprobe_cmd inp, measure_cmd inp (measure_af build_base_filters ti),
        encode_cmd inp out (build_base_filters ++ "," ++ loudnorm_apply_expr ti stats) ab]) := by
  have e1 : ffprobe_json w inp = (.ok meta, [ffprobe_cmd inp]) :=
    (ffprobe_json_ok w inp hrc).trans (by rw [hloads])
  simp [clean_video, e1, hpick, hm, measure_loudnorm_snd, run, subprocessRun]
  split <;> rfl

/-- Two messages built from distinct fixed prefixes are never equal,
whatever texts are appended. -/
lemma append_ne_of_take_ne (a b : String) (n : Nat)
    (hna : n ≤ a.data.length) (hnb : n ≤ b.data.length)
    (hne : a.data.take n ≠ b.data.take n) :
    ∀ s t : String, a ++ s ≠ b ++ t := by
  intro s t h
  apply hne
  have hd : a.data ++ s.data = b.data ++ t.data := by
    have h2 := congrArg String.data h
    simpa [String.data_append] using h2
  calc a.data.take n
      = (a.data ++ s.data).take n := by
        rw [List.take_append_eq_append_take, Nat.sub_eq_zero_of_le hna,
          List.take_zero, List.append_nil]
    _ = (b.data ++ t.data).take n := by rw [hd]
    _ = b.data.take n := by
        rw [List.take_append_eq_append_take, Nat.sub_eq_zero_of_le hnb,
          List.take_zero, List.append_nil]

/-- C3: a non-zero exit status of the probe invocation makes the run
fail with the probe error, of the analysis invocation with the
measurement-failure error, and of the final encode invocation with the
encode error; each error message embeds the captured stderr of the
failing invocation verbatim (as the appended text), and the three
errors are pairwise distinct whatever the two stderr texts are. -/
theorem c3_stage_errors_carry_stderr (w : World) (inp out ti ab : String) :
    ((w.exec (ffprobe_cmd inp)).returncode ≠ 0 →
      (clean_video w inp out ti ab).1 =
        .error (probeErrorOf (w.exec (ffprobe_cmd inp)).stderr)) ∧
    (∀ meta a : Json, (w.exec (ffprobe_cmd inp)).returncode = 0 →
      w.loads (w.exec (ffprobe_cmd inp)).stdout = .ok meta →
      pick_audio_stream meta = .ok (some a) →
      (w.exec (measure_cmd inp (measure_af build_base_filters ti))).returncode ≠ 0 →
      (clean_video w inp out ti ab).1 =
        .error (measureFailError
          (w.exec (measure_cmd inp (measure_af build_base_filters ti))).stderr)) ∧
    (∀ (meta a : Json) (stats : LoudnormStats),
      (w.exec (ffprobe_cmd inp)).returncode = 0 →
      w.loads (w.exec (ffprobe_cmd inp)).stdout = .ok meta →
      pick_audio_stream meta = .ok (some a) →
      (measure_loudnorm w inp build_base_filters ti).1 = .ok stats →
      (w.exec (encode_cmd inp out
        (build_base_filters ++ "," ++ loudnorm_apply_expr ti stats) ab)).returncode ≠ 0 →
      (clean_video w inp out ti ab).1 =
        .error (encodeErrorOf (w.exec (encode_cmd inp out
          (build_base_filters ++ "," ++ loudnorm_apply_expr ti stats) ab)).stderr)) ∧
    (∀ s t : String, probeErrorOf s ≠ measureFailError t) ∧
    (∀ s t : String, probeErrorOf s ≠ encodeErrorOf t) ∧
    (∀ s t : String, measureFailError s ≠ encodeErrorOf t) := by
  refine ⟨?_, ?_, ?_, ?_, ?_, ?_⟩
  · intro hrc
    rw [clean_video_probe_fail w inp out ti ab hrc]
  · intro meta a hrc hloads hpick hm
    rw [clean_video_measure_err w inp out ti ab meta a _ hrc hloads hpick
      (measure_loudnorm_fail w inp build_base_filters ti hm)]
  · intro meta a stats hrc hloads hpick hm henc
    rw [clean_video_success_shape w inp out ti ab meta a stats hrc hloads hpick hm]
    simp [henc]
  · intro s t h
    have h2 : "ffprobe failed:\n" ++ s = "ffmpeg loudnorm measure failed:\n" ++ t := by
      simpa [probeErrorOf, measureFailError] using h
    exact append_ne_of_take_ne "ffprobe failed:\n" "ffmpeg loudnorm measure failed:\n" 4
      (by decide) (by decide) (by decide) s t h2
  · intro s t h
    have h2 : "ffprobe failed:\n" ++ s = "ffmpeg clean failed:\n" ++ t := by
      simpa [probeErrorOf, encodeErrorOf] using h
    exact append_ne_of_take_ne "ffprobe failed:\n" "ffmpeg clean failed:\n" 4
      (by decide) (by decide) (by decide) s t h2
  · intro s t h
    have h2 : "ffmpeg loudnorm measure failed:\n" ++ s = "ffmpeg clean failed:\n" ++ t := by
      simpa [measureFailError, encodeErrorOf] using h
    exact append_ne_of_take_ne "ffmpeg loudnorm measure failed:\n" "ffmpeg clean failed:\n" 8
      (by decide) (by decide) (by decide) s t h2

/-- A probed descriptor with a single audio stream, for concrete runs. -/
def audioOnlyMeta : Json := Json.obj [("streams", Json.arr [audioEntry1])]

/-- The loudnorm analysis report used by the concrete success runs. -/
def statsBlock : String :=
  "\x7b\"input_i\": \"-23.1\", \"input_tp\": \"-2.0\", \"input_lra\": \"7.3\", \"input_thresh\": \"-33.5\", \"target_offset\": \"1.2\"\x7d"

/-- The decoded form of `statsBlock`. -/
def statsJson : Json :=
  Json.obj [("input_i", Json.str "-23.1"), ("input_tp", Json.str "-2.0"),
    ("input_lra", Json.str "7.3"), ("input_thresh", Json.str "-33.5"),
    ("target_offset", Json.str "1.2")]

/-- A world whose probe invocation exits non-zero. -/
def probeFailWorld : World where
  exec := fun _ => ⟨1, "", "probe boom"⟩
  loads := fun _ => .error (.valueError "Expecting value")

/-- A world whose probe succeeds with one audio stream but whose
ffmpeg invocations exit non-zero. -/
def measureFailWorld : World where
  exec := fun cmd =>
    if cmd = ffprobe_cmd "in.mp4" then ⟨0, "PROBEOUT", ""⟩
    else ⟨1, "", "measure boom"⟩
  loads := fun s =>
    if s = "PROBEOUT" then .ok audioOnlyMeta
    else .error (.valueError "Expecting value")

/-- A world where probe and analysis succeed but the final encode
exits non-zero. -/
def encodeFailWorld : World where
  exec := fun cmd =>
    if cmd = ffprobe_cmd "in.mp4" then ⟨0, "PROBEOUT", ""⟩
    else if cmd = measure_cmd "in.mp4" (measure_af build_base_filters "-16.0") then
      ⟨0, "", statsBlock⟩
    else ⟨1, "", "encode boom"⟩
  loads := fun s =>
    if s = "PROBEOUT" then .ok audioOnlyMeta
    else if s = statsBlock then .ok statsJson
    else .error (.valueError "Expecting value")

/-- Witness for C3: in three concrete worlds the pipeline fails at the
probe, analysis and encode stages with the respective errors, each
carrying that invocation's stderr. -/
theorem c3_stage_errors_carry_stderr_witness :
    (clean_video probeFailWorld "in.mp4" "out.mp4" "-16.0" "192k").1 =
      .error (probeErrorOf "probe boom") ∧
    (clean_video measureFailWorld "in.mp4" "out.mp4" "-16.0" "192k").1 =
      .error (measureFailError "measure boom") ∧
    (clean_video encodeFailWorld "in.mp4" "out.mp4" "-16.0" "192k").1 =
      .error (encodeErrorOf "encode boom") :=
  ⟨(c3_stage_errors_carry_stderr probeFailWorld "in.mp4" "out.mp4" "-16.0" "192k").1
      (by decide),
   (c3_stage_errors_carry_stderr measureFailWorld "in.mp4" "out.mp4" "-16.0" "192k").2.1
      audioOnlyMeta audioEntry1 (by decide) rfl rfl (by decide),
   (c3_stage_errors_carry_stderr encodeFailWorld "in.mp4" "out.mp4" "-16.0" "192k").2.2.1
      audioOnlyMeta audioEntry1 ⟨"-23.1", "-2.0", "7.3", "-33.5", "1.2"⟩
      (by decide) rfl rfl rfl (by decide)⟩

/-- On a zero analysis exit status, the measurement result is decided
by the brace-delimited scan of the captured stderr: no block raises the
parse error, and an extracted block is handed to the report parser. -/
lemma measure_loudnorm_ok (w : World) (inp bf ti : String)
    (h0 : (w.exec (measure_cmd inp (measure_af bf ti))).returncode = 0) :
    (measure_loudnorm w inp bf ti).1 =
      (match LOUDNORM_JSON_RE_search (w.exec (measure_cmd inp (measure_af bf ti))).stderr with
       | none =>
         .error (parseFailError (w.exec (measure_cmd inp (measure_af bf ti))).stderr)
       | some block => parseStats w block) := by
  simp [measure_loudnorm, run, subprocessRun, h0]

/-- The greedy scan on a text split around its first left brace and its
last right brace. -/
lemma braceSearch_decompose (pre mid post : List Char)
    (hpre : pre.all (fun c => c != '\x7b') = true)
    (hpost : post.all (fun c => c != '\x7d') = true) :
    LOUDNORM_JSON_RE_search (String.mk (pre ++ ('\x7b' :: (mid ++ ('\x7d' :: post))))) =
      some (String.mk ('\x7b' :: (mid ++ ['\x7d']))) := by
  simp only [List.all_eq_true] at hpre hpost
  have h1 : (pre ++ ('\x7b' :: (mid ++ ('\x7d' :: post)))).dropWhile (fun c => c != '\x7b') =
      '\x7b' :: (mid ++ ('\x7d' :: post)) := by
    rw [List.dropWhile_append_of_pos hpre]
    simp [List.dropWhile_cons]
  have h2 : (mid ++ ('\x7d' :: post)).reverse.dropWhile (fun c => c != '\x7d') =
      '\x7d' :: mid.reverse := by
    rw [List.reverse_append, List.reverse_cons, List.append_assoc]
    rw [List.dropWhile_append_of_pos (by simpa using hpost)]
    simp [List.dropWhile_cons]
  have hdata : (String.mk (pre ++ ('\x7b' :: (mid ++ ('\x7d' :: post))))).data =
      pre ++ ('\x7b' :: (mid ++ ('\x7d' :: post))) := rfl
  simp only [LOUDNORM_JSON_RE_search, hdata, h1, h2]
  simp [List.reverse_cons, List.reverse_reverse]

/-- C7: the structured report is located in the analysis pass's
diagnostic text by a greedy brace-delimited scan.  Splitting the text
as `pre ++ first left brace ++ mid ++ last right brace ++ post` (with
no left brace in `pre` and no right brace in `post`), the extracted
substring runs from that first left brace to that last right brace —
so a later unrelated right brace extends the match — and on a
successful analysis invocation this very substring is what is handed
to the five-field report parser. -/
theorem c7_greedy_brace_scan (pre mid post : List Char)
    (hpre : pre.all (fun c => c != '\x7b') = true)
    (hpost : post.all (fun c => c != '\x7d') = true) :
    LOUDNORM_JSON_RE_search (String.mk (pre ++ ('\x7b' :: (mid ++ ('\x7d' :: post))))) =
      some (String.mk ('\x7b' :: (mid ++ ['\x7d']))) ∧
    (∀ (w : World) (inp bf ti : String),
      (w.exec (measure_cmd inp (measure_af bf ti))).returncode = 0 →
      (w.exec (measure_cmd inp (measure_af bf ti))).stderr =
        String.mk (pre ++ ('\x7b' :: (mid ++ ('\x7d' :: post)))) →
      (measure_loudnorm w inp bf ti).1 =
        parseStats w (String.mk ('\x7b' :: (mid ++ ['\x7d'])))) := by
  refine ⟨braceSearch_decompose pre mid post hpre hpost, ?_⟩
  intro w inp bf ti h0 hstderr
  rw [measure_loudnorm_ok w inp bf ti h0, hstderr,
    braceSearch_decompose pre mid post hpre hpost]

/-- A world whose analysis pass emits diagnostic text with an early
stray right brace before the report block and one inside it. -/
def diagWorld : World where
  exec := fun cmd =>
    if cmd = ffprobe_cmd "in.mp4" then ⟨0, "PROBEOUT", ""⟩
    else ⟨0, "", String.mk ("L\x7d ".data ++ ('\x7b' :: ("A\x7dB".data ++ ('\x7d' :: " tail".data))))⟩
  loads := fun _ => .error (.valueError "Expecting value")

/-- Witness for C7: on the text `L} {A}B} tail` the scan extracts
`{A}B}` (first left brace to last right brace), and the measurement
pass parses exactly that substring. -/
theorem c7_greedy_brace_scan_witness :
    LOUDNORM_JSON_RE_search
        (String.mk ("L\x7d ".data ++ ('\x7b' :: ("A\x7dB".data ++ ('\x7d' :: " tail".data))))) =
      some (String.mk ('\x7b' :: ("A\x7dB".data ++ ['\x7d']))) ∧
    (measure_loudnorm diagWorld "in.mp4" "bf" "-16.0").1 =
      parseStats diagWorld (String.mk ('\x7b' :: ("A\x7dB".data ++ ['\x7d']))) :=
  ⟨(c7_greedy_brace_scan "L\x7d ".data "A\x7dB".data " tail".data (by decide) (by decide)).1,
   (c7_greedy_brace_scan "L\x7d ".data "A\x7dB".data " tail".data (by decide) (by decide)).2
     diagWorld "in.mp4" "bf" "-16.0" (by decide) rfl⟩

/-- The five fields the measurement report must provide, in the order
the `LoudnormStats` constructor arguments subscript them. -/
def loudnormRequiredFields : List String :=
  ["input_i", "input_tp", "input_lra", "input_thresh", "target_offset"]

/-- The first required report field absent from a decoded report
object, if any. -/
def firstMissingField (kvs : List (String × Json)) : Option String :=
  loudnormRequiredFields.find? (fun k => (dictGet kvs k).isNone)

/-- Errors the spec's taxonomy calls `MeasurementError`: the two
`RuntimeError` messages raised inside `measure_loudnorm`. -/
def IsMeasurementError (e : PyErr) : Prop :=
  ∃ s : String, e = measureFailError s ∨ e = parseFailError s

/-- When the decoded report object lacks a required field, the report
parser raises `KeyError` on the first missing one. -/
lemma parseStats_missing (w : World) (block : String)
    (kvs : List (String × Json)) (k : String)
    (hl : w.loads block = .ok (Json.obj kvs))
    (hk : firstMissingField kvs = some k) :
    parseStats w block = .error (.keyError k) := by
  rcases h1 : dictGet kvs "input_i" with _ | v1
  · simp [firstMissingField, loudnormRequiredFields, h1] at hk
    subst hk
    simp [parseStats, hl, pySubscript, h1]
  · rcases h2 : dictGet kvs "input_tp" with _ | v2
    · simp [firstMissingField, loudnormRequiredFields, h1, h2] at hk
      subst hk
      simp [parseStats, hl, pySubscript, h1, h2]
    · rcases h3 : dictGet kvs "input_lra" with _ | v3
      · simp [firstMissingField, loudnormRequiredFields, h1, h2, h3] at hk
        subst hk
        simp [parseStats, hl, pySubscript, h1, h2, h3]
      · rcases h4 : dictGet kvs "input_thresh" with _ | v4
        · simp [firstMissingField, loudnormRequiredFields, h1, h2, h3, h4] at hk
          subst hk
          simp [parseStats, hl, pySubscript, h1, h2, h3, h4]
        · rcases h5 : dictGet kvs "target_offset" with _ | v5
          · simp [firstMissingField, loudnormRequiredFields, h1, h2, h3, h4, h5] at hk
            subst hk
            simp [parseStats, hl, pySubscript, h1, h2, h3, h4, h5]
          · simp [firstMissingField, loudnormRequiredFields, h1, h2, h3, h4, h5] at hk

/-- A world whose analysis pass succeeds but reports an empty JSON
object, lacking all five required fields. -/
def emptyReportWorld : World where
  exec := fun cmd =>
    if cmd = ffprobe_cmd "in.mp4" then ⟨0, "PROBEOUT", ""⟩
    else ⟨0, "", "\x7b\x7d"⟩
  loads := fun s =>
    if s = "PROBEOUT" then .ok audioOnlyMeta
    else if s = "\x7b\x7d" then .ok (Json.obj [])
    else .error (.valueError "Expecting value")

/-- Counterexample to C4: when the analysis succeeds and its diagnostic
output carries the well-formed but field-less block of an empty object,
the pipeline fails with `KeyError` on `input_i` — an unhandled
exception from the record construction — and not with any
`MeasurementError` (neither of the two `RuntimeError` messages raised
by `measure_loudnorm`). -/
theorem c4_measurement_error_counterexample :
    (clean_video emptyReportWorld "in.mp4" "out.mp4" "-16.0" "192k").1 =
      .error (.keyError "input_i") ∧
    ¬ IsMeasurementError (.keyError "input_i") := by
  constructor
  · rfl
  · rintro ⟨s, h | h⟩ <;> simp [measureFailError, parseFailError] at h

/-- C4 (amended): on a successful analysis invocation, if the
diagnostic output contains no brace-delimited block the pipeline fails
with the measurement parse error (a `MeasurementError`); if a block is
extracted and decodes to an object lacking any of the five required
fields, the pipeline fails with a `KeyError` naming the first missing
field (in the order `input_i`, `input_tp`, `input_lra`,
`input_thresh`, `target_offset`) — not a `MeasurementError`.  In both
cases the spawned-command trace stops at the analysis invocation, so
the apply (encode) command is never invoked. -/
theorem c4_no_block_or_missing_fields (w : World) (inp out ti ab : String)
    (meta a : Json)
    (hrc : (w.exec (ffprobe_cmd inp)).returncode = 0)
    (hloads : w.loads (w.exec (ffprobe_cmd inp)).stdout = .ok meta)
    (hpick : pick_audio_stream meta = .ok (some a))
    (h0 : (w.exec (measure_cmd inp (measure_af build_base_filters ti))).returncode = 0) :
    (LOUDNORM_JSON_RE_search
        (w.exec (measure_cmd inp (measure_af build_base_filters ti))).stderr = none →
      clean_video w inp out ti ab =
        (.error (parseFailError
            (w.exec (measure_cmd inp (measure_af build_base_filters ti))).stderr),
         [ffprobe_cmd inp, measure_cmd inp (measure_af build_base_filters ti)])) ∧
    (∀ (block : String) (kvs : List (String × Json)) (k : String),
      LOUDNORM_JSON_RE_search
          (w.exec (measure_cmd inp (measure_af build_base_filters ti))).stderr = some block →
      w.loads block = .ok (Json.obj kvs) →
      firstMissingField kvs = some k →
      clean_video w inp out ti ab =
        (.error (.keyError k),
         [ffprobe_cmd inp, measure_cmd inp (measure_af build_base_filters ti)])) := by
  constructor
  · intro hsearch
    have hm : (measure_loudnorm w inp build_base_filters ti).1 =
        .error (parseFailError
          (w.exec (measure_cmd inp (measure_af build_base_filters ti))).stderr) := by
      rw [measure_loudnorm_ok w inp build_base_filters ti h0, hsearch]
    exact clean_video_measure_err w inp out ti ab meta a _ hrc hloads hpick hm
  · intro block kvs k hsearch hl hk
    have hm : (measure_loudnorm w inp build_base_filters ti).1 =
        .error (.keyError k) := by
      rw [measure_loudnorm_ok w inp build_base_filters ti h0, hsearch]
      exact parseStats_missing w block kvs k hl hk
    exact clean_video_measure_err w inp out ti ab meta a _ hrc hloads hpick hm

/-- Witness for the amended C4: in `emptyReportWorld` the pipeline
fails with `KeyError` on `input_i` and the trace stops after probe and
analysis — no encode command. -/
theorem c4_no_block_or_missing_fields_witness :
    clean_video emptyReportWorld "in.mp4" "out.mp4" "-16.0" "192k" =
      (.error (.keyError "input_i"),
       [ffprobe_cmd "in.mp4",
        measure_cmd "in.mp4" (measure_af build_base_filters "-16.0")]) :=
  (c4_no_block_or_missing_fields emptyReportWorld "in.mp4" "out.mp4" "-16.0" "192k"
      audioOnlyMeta audioEntry1 (by decide) rfl rfl (by decide)).2
    "\x7b\x7d" [] "input_i" rfl rfl rfl

/-- The measurement filter argument is the base chain, a comma, then
the analysis-mode loudnorm stage. -/
lemma measure_af_split (bf ti : String) :
    measure_af bf ti =
      bf ++ "," ++ ("loudnorm=I=" ++ ti ++ ":TP=-1.5:LRA=11:print_format=json") := by
  have h : (",loudnorm=I=" : String) = "," ++ "loudnorm=I=" := rfl
  simp only [measure_af, h, String.append_assoc]

/-- A world in which probe, analysis and encode all succeed on an
audio-only input. -/
def successWorld : World where
  exec := fun cmd =>
    if cmd = ffprobe_cmd "in.mp4" then ⟨0, "PROBEOUT", ""⟩
    else if cmd = measure_cmd "in.mp4" (measure_af build_base_filters "-16.0") then
      ⟨0, "", statsBlock⟩
    else ⟨0, "", ""⟩
  loads := fun s =>
    if s = "PROBEOUT" then .ok audioOnlyMeta
    else if s = statsBlock then .ok statsJson
    else .error (.valueError "Expecting value")

/-- C5: on every run that reaches the apply pass, the spawned commands
are exactly probe, analysis and encode, and the filter argument of the
analysis command and the filter argument of the encode command are both
the one string `build_base_filters` followed by a comma and the
respective loudnorm stage — the base filter chain is byte-identical
between the two invocations. -/
theorem c5_base_chain_shared_between_passes (w : World) (inp out ti ab : String)
    (meta a : Json) (stats : LoudnormStats)
    (hrc : (w.exec (ffprobe_cmd inp)).returncode = 0)
    (hloads : w.loads (w.exec (ffprobe_cmd inp)).stdout = .ok meta)
    (hpick : pick_audio_stream meta = .ok (some a))
    (hm : (measure_loudnorm w inp build_base_filters ti).1 = .ok stats) :
    (clean_video w inp out ti ab).2 =
      [ffprobe_cmd inp,
       measure_cmd inp
         (build_base_filters ++ "," ++
           ("loudnorm=I=" ++ ti ++ ":TP=-1.5:LRA=11:print_format=json")),
       encode_cmd inp out
         (build_base_filters ++ "," ++ loudnorm_apply_expr ti stats) ab] := by
  rw [clean_video_success_shape w inp out ti ab meta a stats hrc hloads hpick hm]
  rw [measure_af_split build_base_filters ti]

/-- Witness for C5: in `successWorld` the trace is probe, analysis and
encode, both ffmpeg passes carrying the same base chain before the
comma. -/
theorem c5_base_chain_shared_between_passes_witness :
    (clean_video successWorld "in.mp4" "out.mp4" "-16.0" "192k").2 =
      [ffprobe_cmd "in.mp4",
       measure_cmd "in.mp4"
         (build_base_filters ++ "," ++
           ("loudnorm=I=" ++ "-16.0" ++ ":TP=-1.5:LRA=11:print_format=json")),
       encode_cmd "in.mp4" "out.mp4"
         (build_base_filters ++ "," ++
           loudnorm_apply_expr "-16.0" ⟨"-23.1", "-2.0", "7.3", "-33.5", "1.2"⟩) "192k"] :=
  c5_base_chain_shared_between_passes successWorld "in.mp4" "out.mp4" "-16.0" "192k"
    audioOnlyMeta audioEntry1 ⟨"-23.1", "-2.0", "7.3", "-33.5", "1.2"⟩
    (by decide) rfl rfl rfl

/-- C10: on every run that reaches the apply pass, the encode command
unconditionally contains the video-stream mapping with stream copy —
the consecutive arguments `-map 0:v:0 -c:v copy` — whatever the probed
metadata contains; the hypotheses require only that an audio stream be
found, so no video-stream precondition is checked before the encode
invocation. -/
theorem c10_video_copy_mapping_unconditional (w : World) (inp out ti ab : String)
    (meta a : Json) (stats : LoudnormStats)
    (hrc : (w.exec (ffprobe_cmd inp)).returncode = 0)
    (hloads : w.loads (w.exec (ffprobe_cmd inp)).stdout = .ok meta)
    (hpick : pick_audio_stream meta = .ok (some a))
    (hm : (measure_loudnorm w inp build_base_filters ti).1 = .ok stats) :
    (clean_video w inp out ti ab).2 =
      [ffprobe_cmd inp,
       measure_cmd inp (measure_af build_base_filters ti),
       ["ffmpeg", "-hide_banner", "-nostdin", "-y", "-i", inp] ++
         (["-map", "0:v:0", "-c:v", "copy"] ++
           ["-map", "0:a:0", "-af",
            build_base_filters ++ "," ++ loudnorm_apply_expr ti stats,
            "-c:a", "aac", "-b:a", ab, "-movflags", "+faststart", out])] := by
  rw [clean_video_success_shape w inp out ti ab meta a stats hrc hloads hpick hm]
  rfl

/-- Witness for C10: in `successWorld` — whose probed metadata lists a
single audio stream and no video stream at all — the encode command is
still issued with the `-map 0:v:0 -c:v copy` video-copy mapping. -/
theorem c10_video_copy_mapping_unconditional_witness :
    (clean_video successWorld "in.mp4" "out.mp4" "-16.0" "192k").2 =
      [ffprobe_cmd "in.mp4",
       measure_cmd "in.mp4" (measure_af build_base_filters "-16.0"),
       ["ffmpeg", "-hide_banner", "-nostdin", "-y", "-i", "in.mp4"] ++
         (["-map", "0:v:0", "-c:v", "copy"] ++
           ["-map", "0:a:0", "-af",
            build_base_filters ++ "," ++
              loudnorm_apply_expr "-16.0" ⟨"-23.1", "-2.0", "7.3", "-33.5", "1.2"⟩,
            "-c:a", "aac", "-b:a", "192k", "-movflags", "+faststart", "out.mp4"])] :=
  c10_video_copy_mapping_unconditional successWorld "in.mp4" "out.mp4" "-16.0" "192k"
    audioOnlyMeta audioEntry1 ⟨"-23.1", "-2.0", "7.3", "-33.5", "1.2"⟩
    (by decide) rfl rfl rfl

/-- C9: the process invoker `run` passes `check=False` to
`subprocess.run`, so for every environment and argument vector it
returns the completed process (exit code together with the fully
captured stdout and stderr texts) and never raises
`CalledProcessError` on a non-zero exit code. -/
theorem c9_run_never_raises (w : World) (cmd : List String) :
    run w cmd = .ok (w.exec cmd) := by
  simp [run, subprocessRun]

end VoiceCleaner
